import Mathlib

/-!
Verification development for the sentiment-platform repository.

The Python sources are shallowly embedded: dictionaries become structures,
database tables become lists of rows, timestamps become integers (seconds
since an arbitrary epoch), and Python floats that only ever carry exact
decimal values are modelled as rationals.  Effectful steps (database calls,
classifier calls, pub/sub) are modelled by explicit outcome parameters so
that the control flow of the Python code can be reproduced faithfully.
-/

namespace SentimentPlatform

/-! ## Data model (src/backend/models/models.py)

Table social_media_posts: post_id is unique (unique=True on the column);
ingested_at has default datetime.utcnow.  Table sentiment_analysis:
post_id is a foreign key to social_media_posts.post_id (not unique);
analyzed_at has default datetime.utcnow. -/

structure PostRow where
  post_id : String
  source : String
  content : String
  author : String
  created_at : Int
  ingested_at : Int
  deriving Repr, DecidableEq

structure AnalysisRow where
  post_id : String
  model_name : String
  sentiment_label : String
  confidence_score : ℚ
  emotion : Option String
  analyzed_at : Int
  deriving Repr, DecidableEq

/-- The durable store: the two tables the worker writes.  Alerts are
modelled separately (see the alerting section). -/
structure Store where
  posts : List PostRow
  analyses : List AnalysisRow
  deriving Repr, DecidableEq

def Store.empty : Store := ⟨[], []⟩

/-! ## Worker processor (src/worker/processor.py, save_post_and_analysis)

The Python function receives the post fields as a dict (the worker caller
builds it with all five keys present, worker.py lines 69-75, so the dict is
modelled as a total structure) together with the classifier result dicts,
whose relevant entries may be absent or None. -/

structure PostData where
  post_id : String
  source : String
  content : String
  author : String
  created_at : Int
  deriving Repr, DecidableEq

/-- sentiment_result dict: entries looked up with .get, so each may be
absent (None). -/
structure SentimentResult where
  sentiment_label : Option String
  confidence_score : Option ℚ
  model_name : Option String
  deriving Repr, DecidableEq

/-- emotion_result dict. -/
structure EmotionResult where
  emotion : Option String
  confidence_score : ℚ
  model_name : String
  deriving Repr, DecidableEq

/-- Python `x or "neutral"`: None and the empty string are falsy. -/
def orNeutral : Option String → String
  | none => "neutral"
  | some v => if v = "" then "neutral" else v

/-- Python `float(cs) if cs is not None else 0.5`. -/
def confOrHalf : Option ℚ → ℚ
  | none => 1/2
  | some c => c

/-- Outcome of the two INSERT statements inside the transaction; a
transient connection error makes execute raise before any row lands. -/
inductive DbOutcome where
  | ok
  | transientError
  deriving Repr, DecidableEq

/-- The Post row the first INSERT writes (ingested_at defaults to now). -/
def newPostRow (pd : PostData) (now : Int) : PostRow :=
  { post_id := pd.post_id, source := pd.source, content := pd.content,
    author := pd.author, created_at := pd.created_at, ingested_at := now }

/-- The Analysis row the second INSERT writes, with the hard defaults of
processor.py lines 61-64 (analyzed_at defaults to now). -/
def newAnalysisRow (pd : PostData) (sr : SentimentResult) (er : EmotionResult)
    (now : Int) : AnalysisRow :=
  { post_id := pd.post_id,
    model_name := (sr.model_name).getD "default",
    sentiment_label := orNeutral sr.sentiment_label,
    confidence_score := confOrHalf sr.confidence_score,
    emotion := some (orNeutral er.emotion),
    analyzed_at := now }

/-- The body of the transaction in save_post_and_analysis: INSERT the post
row (violating the unique constraint on post_id if a row with that id
exists), then INSERT the analysis row.  Returns none when the transaction
raises, in which case everything is rolled back. -/
def insertPostAndAnalysis (db : DbOutcome) (now : Int) (s : Store)
    (pd : PostData) (sr : SentimentResult) (er : EmotionResult) : Option Store :=
  match db with
  | .transientError => none
  | .ok =>
    if s.posts.any (fun p => p.post_id == pd.post_id) then
      none
    else
      some
        { posts := s.posts ++ [newPostRow pd now],
          analyses := s.analyses ++ [newAnalysisRow pd sr er now] }

/-- save_post_and_analysis (processor.py lines 40-79): the transaction is
wrapped in `try ... except Exception: print(...)`, so every failure —
including the unique-constraint violation on a duplicate post_id and any
transient database error — is swallowed and the caller observes success
with the store rolled back to its previous state. -/
def savePostAndAnalysis (db : DbOutcome) (now : Int) (s : Store)
    (pd : PostData) (sr : SentimentResult) (er : EmotionResult) : Store :=
  match insertPostAndAnalysis db now s pd sr er with
  | some s1 => s1
  | none => s

/-! ## Worker (src/worker/worker.py, SentimentWorker.process_message)

A stream entry arrives as a dict of decoded field strings.  The effectful
collaborators — datetime.fromisoformat, the two sentiment analyzers, the
emotion analyzer, the database and the pub/sub publish — are passed in as
an environment; a `none` result models the Python call raising. -/

structure RawMessage where
  fields : List (String × String)
  deriving Repr, DecidableEq

def RawMessage.get (m : RawMessage) (k : String) : Option String :=
  (m.fields.find? (fun kv => kv.fst == k)).map Prod.snd

def requiredKeys : List String :=
  ["post_id", "source", "content", "author", "created_at"]

/-- required_keys.issubset(decoded.keys()). -/
def hasAllRequired (m : RawMessage) : Bool :=
  requiredKeys.all (fun k => (m.get k).isSome)

structure WorkerEnv where
  parseInstant : String → Option Int
  localSentiment : String → Option SentimentResult
  externalSentiment : String → Option SentimentResult
  localEmotion : String → Option EmotionResult
  publishOk : Bool
  db : DbOutcome

/-- Observable result of one process_message call: whether the entry was
xacked, the resulting store, which counter was incremented, whether the
post event went out on sentiment_updates, and the boolean return value. -/
structure WorkerOutcome where
  acked : Bool
  store : Store
  processedInc : Bool
  failedInc : Bool
  published : Bool
  returned : Bool
  deriving Repr, DecidableEq

/-- Poison path shared by the missing-field branch (worker.py lines 60-64)
and the outer `except Exception` handler (lines 130-138): ack, count the
entry as failed, leave the store untouched, return False. -/
def poisonOutcome (s : Store) : WorkerOutcome :=
  { acked := true, store := s, processedInc := false, failedInc := true,
    published := false, returned := false }

/-- Retryable path (inner `except Exception as db_exc`, lines 95-99): do
not ack, count as failed, return False. -/
def retryOutcome (s : Store) : WorkerOutcome :=
  { acked := false, store := s, processedInc := false, failedInc := true,
    published := false, returned := false }

/-- process_message (worker.py lines 53-138).  Control flow:
1. missing required key → ack + failed (poison);
2. datetime.fromisoformat raising on created_at is caught by the OUTER
   except handler → ack + failed (poison);
3. local sentiment analyzer raising falls back to the external one; both
   raising is caught by the INNER except handler → no ack (retry), as is
   the emotion analyzer raising;
4. save_post_and_analysis never raises (it swallows its own errors), so
   after it the worker always publishes (best-effort) and acks. -/
def processMessage (env : WorkerEnv) (now : Int) (s : Store) (m : RawMessage) :
    WorkerOutcome :=
  if hasAllRequired m = false then
    poisonOutcome s
  else
    match env.parseInstant ((m.get "created_at").getD "") with
    | none => poisonOutcome s
    | some createdAt =>
      let pd : PostData :=
        { post_id := (m.get "post_id").getD "",
          source := (m.get "source").getD "",
          content := (m.get "content").getD "",
          author := (m.get "author").getD "",
          created_at := createdAt }
      match (env.localSentiment pd.content).orElse (fun _ => env.externalSentiment pd.content) with
      | none => retryOutcome s
      | some sr =>
        match env.localEmotion pd.content with
        | none => retryOutcome s
        | some er =>
          let s1 := savePostAndAnalysis env.db now s pd sr er
          { acked := true, store := s1, processedInc := true, failedInc := false,
            published := env.publishOk, returned := true }

/-! ## SQL join shared by alerting, aggregation and distribution

All three read paths run
`SELECT ... FROM sentiment_analysis JOIN social_media_posts
 ON social_media_posts.post_id = sentiment_analysis.post_id`.
The inner join is the multiset of (post, analysis) pairs agreeing on
post_id (post_id is unique among posts, so each analysis matches at most
one post). -/

def joinedRows (s : Store) : List (PostRow × AnalysisRow) :=
  s.analyses.flatMap
    (fun a => (s.posts.filter (fun p => p.post_id == a.post_id)).map (fun p => (p, a)))

/-- SUM(CASE WHEN sentiment_label = lbl THEN 1 ELSE 0 END) over a row set. -/
def countLabel (rows : List (PostRow × AnalysisRow)) (lbl : String) : Nat :=
  (rows.filter (fun pa => pa.2.sentiment_label == lbl)).length

structure SentimentCounts where
  positive : Nat
  negative : Nat
  neutral : Nat
  total : Nat
  deriving Repr, DecidableEq

/-- The (positive, negative, neutral, COUNT(id)) aggregate of a row set.
(SQL SUM over an empty set yields NULL, which every caller in the sources
only ever compares against a minimum-post bound or a positivity test it
fails; modelling NULL as 0 is observationally equivalent there.) -/
def countsOf (rows : List (PostRow × AnalysisRow)) : SentimentCounts :=
  { positive := countLabel rows "positive",
    negative := countLabel rows "negative",
    neutral := countLabel rows "neutral",
    total := rows.length }

/-! ## Alert monitor (src/backend/services/alerting.py) -/

/-- Rows of the check_thresholds query: the join filtered by
analyzed_at >= now - window_minutes. -/
def alertWindowRows (s : Store) (now : Int) (windowMinutes : Nat) :
    List (PostRow × AnalysisRow) :=
  (joinedRows s).filter (fun pa => decide (now - windowMinutes * 60 ≤ pa.2.analyzed_at))

def alertWindowCounts (s : Store) (now : Int) (windowMinutes : Nat) : SentimentCounts :=
  countsOf (alertWindowRows s now windowMinutes)

/-- The ratio computed by check_thresholds; Python float("inf") is the
second constructor. -/
inductive AlertRatio where
  | finite (q : ℚ)
  | infinite
  deriving Repr, DecidableEq

/-- alerting.py lines 91-99. -/
def computeRatio (pos neg : Nat) : AlertRatio :=
  if pos = 0 then
    if 0 < neg then .infinite else .finite 0
  else
    .finite ((neg : ℚ) / (max pos 1 : ℚ))

/-- Python `ratio <= threshold` (line 101); float("inf") compares greater
than every finite threshold. -/
def ratioLe (r : AlertRatio) (t : ℚ) : Bool :=
  match r with
  | .finite q => decide (q ≤ t)
  | .infinite => false

/-- The alert_data dict built at lines 104-117. -/
structure AlertData where
  alert_type : String
  threshold : ℚ
  actual_ratio : AlertRatio
  window_minutes : Nat
  positive_count : Nat
  negative_count : Nat
  neutral_count : Nat
  total_count : Nat
  timestamp : Int
  deriving Repr, DecidableEq

/-- AlertService.check_thresholds (alerting.py lines 37-119). -/
def checkThresholds (threshold : ℚ) (minPosts windowMinutes : Nat)
    (s : Store) (now : Int) : Option AlertData :=
  let c := alertWindowCounts s now windowMinutes
  if c.total < minPosts then
    none
  else
    let ratio := computeRatio c.positive c.negative
    if ratioLe ratio threshold then
      none
    else
      some
        { alert_type := "high_negative_ratio",
          threshold := threshold,
          actual_ratio := ratio,
          window_minutes := windowMinutes,
          positive_count := c.positive,
          negative_count := c.negative,
          neutral_count := c.neutral,
          total_count := c.total,
          timestamp := now }

/-! ## AlertService.save_alert versus the SentimentAlert table (C5)

models.py lines 72-87 declare the columns of sentiment_alerts;
alerting.py lines 126-137 construct SentimentAlert(...) with keyword
arguments.  A SQLAlchemy declarative constructor accepts only attribute
names that exist on the mapped class, so each keyword is checked against
the column list. -/

/-- Column attributes of SentimentAlert (models.py lines 72-87). -/
def sentimentAlertColumns : List String :=
  ["id", "alert_type", "threshold_value", "actual_value", "window_start",
   "window_end", "post_count", "triggered_at", "details"]

/-- Keyword arguments passed to SentimentAlert(...) by
AlertService.save_alert (alerting.py lines 126-137). -/
def saveAlertKwargs : List String :=
  ["alert_type", "threshold_value", "actual_value", "window_minutes",
   "positive_count", "negative_count", "neutral_count", "total_count",
   "created_at", "raw_payload"]

/-! ## Aggregator (src/backend/services/aggregrator.py) and the
duplicated logic of routes.get_sentiment_aggregate
(src/backend/api/routes.py lines 181-298).  Both build the same query and
the same response, so one embedding serves both. -/

/-- date_trunc(period, analyzed_at) on epoch-second timestamps; the
fallthrough branch is "hour", exactly as in the Python if/elif/else. -/
def bucketStart (period : String) (t : Int) : Int :=
  if period = "minute" then t - t % 60
  else if period = "day" then t - t % 86400
  else t - t % 3600

/-- WHERE source filter: applied only when a source is given. -/
def sourceMatches (source : Option String) (p : PostRow) : Bool :=
  match source with
  | none => true
  | some src => p.source == src

/-- The joined rows of the aggregate query:
analyzed_at between start and end, optional source filter. -/
def aggregateRows (s : Store) (startT endT : Int) (source : Option String) :
    List (PostRow × AnalysisRow) :=
  (joinedRows s).filter
    (fun pa => decide (startT ≤ pa.2.analyzed_at) && decide (pa.2.analyzed_at ≤ endT)
      && sourceMatches source pa.1)

/-- One element of the response's data[] list. -/
structure BucketOut where
  timestamp : Int
  positive_count : Nat
  negative_count : Nat
  neutral_count : Nat
  total_count : Nat
  positive_percentage : ℚ
  negative_percentage : ℚ
  neutral_percentage : ℚ
  average_confidence : ℚ
  deriving Repr, DecidableEq

/-- The GROUP BY group of one bucket value, rendered as a data[] entry
(percentage and AVG(confidence_score) float arithmetic modelled in ℚ). -/
def mkBucketOut (period : String) (rows : List (PostRow × AnalysisRow)) (b : Int) :
    BucketOut :=
  let sub := rows.filter (fun pa => bucketStart period pa.2.analyzed_at == b)
  let pos := countLabel sub "positive"
  let neg := countLabel sub "negative"
  let neu := countLabel sub "neutral"
  let tot := sub.length
  { timestamp := b,
    positive_count := pos,
    negative_count := neg,
    neutral_count := neu,
    total_count := tot,
    positive_percentage := if 0 < tot then (pos : ℚ) / (tot : ℚ) * 100 else 0,
    negative_percentage := if 0 < tot then (neg : ℚ) / (tot : ℚ) * 100 else 0,
    neutral_percentage := if 0 < tot then (neu : ℚ) / (tot : ℚ) * 100 else 0,
    average_confidence :=
      if 0 < tot then (sub.map (fun pa => pa.2.confidence_score)).sum / (tot : ℚ) else 0 }

/-- The summary accumulated alongside data[] (total_posts += total_count
and friends, one increment per bucket row of the grouped query). -/
structure AggregateSummary where
  total_posts : Nat
  positive_total : Nat
  negative_total : Nat
  neutral_total : Nat
  deriving Repr, DecidableEq

structure AggregateResponse where
  period : String
  start_date : Int
  end_date : Int
  data : List BucketOut
  summary : AggregateSummary
  deriving Repr, DecidableEq

/-- SentimentAggregator.get_aggregate (aggregrator.py lines 38-146) =
routes.get_sentiment_aggregate (routes.py lines 181-298): group the
filtered join by bucket (ORDER BY bucket), emit one data[] entry per
group, and accumulate the four summary totals over the emitted entries. -/
def getAggregate (s : Store) (period : String) (startT endT : Int)
    (source : Option String) : AggregateResponse :=
  let rows := aggregateRows s startT endT source
  let buckets :=
    ((rows.map (fun pa => bucketStart period pa.2.analyzed_at)).dedup).mergeSort
      (fun a b => decide (a ≤ b))
  let data := buckets.map (mkBucketOut period rows)
  { period := period,
    start_date := startT,
    end_date := endT,
    data := data,
    summary :=
      { total_posts := (data.map (fun bo => bo.total_count)).sum,
        positive_total := (data.map (fun bo => bo.positive_count)).sum,
        negative_total := (data.map (fun bo => bo.negative_count)).sum,
        neutral_total := (data.map (fun bo => bo.neutral_count)).sum } }

/-! ## Distribution (aggregrator.py lines 148-222 and
routes.get_sentiment_distribution, routes.py lines 301-381) -/

/-- Rows of the distribution query: analyzed_at >= now - hours,
optional source filter. -/
def distributionRows (s : Store) (now : Int) (hours : Nat) (source : Option String) :
    List (PostRow × AnalysisRow) :=
  (joinedRows s).filter
    (fun pa => decide (now - hours * 3600 ≤ pa.2.analyzed_at) && sourceMatches source pa.1)

/-- The distribution payload (JSON blob); nested {distribution, percentages}
objects are flattened into one record, which preserves every field a claim
mentions. -/
structure DistPayload where
  timeframe_hours : Nat
  source : Option String
  positive : Nat
  negative : Nat
  neutral : Nat
  total : Nat
  positive_pct : ℚ
  negative_pct : ℚ
  neutral_pct : ℚ
  cached : Bool
  cached_at : Int
  deriving Repr, DecidableEq

/-- The store-computed distribution payload common to the aggregator's
miss path and the HTTP route (always cached=false, cached_at=now). -/
def computeDistribution (s : Store) (now : Int) (hours : Nat)
    (source : Option String) : DistPayload :=
  let c := countsOf (distributionRows s now hours source)
  { timeframe_hours := hours,
    source := source,
    positive := c.positive,
    negative := c.negative,
    neutral := c.neutral,
    total := c.total,
    positive_pct := if 0 < c.total then (c.positive : ℚ) / (c.total : ℚ) * 100 else 0,
    negative_pct := if 0 < c.total then (c.negative : ℚ) / (c.total : ℚ) * 100 else 0,
    neutral_pct := if 0 < c.total then (c.neutral : ℚ) / (c.total : ℚ) * 100 else 0,
    cached := false,
    cached_at := now }

/-- SentimentAggregator.get_distribution.  The cache argument is the entry
currently stored under the key distribution:{hours}:{source|all} (none
when absent or expired).  The second component of the result is the
setex write the call performs: (payload, ttl seconds), or none. -/
def getDistribution (useCache : Bool) (cache : Option DistPayload) (s : Store)
    (now : Int) (hours : Nat) (source : Option String) :
    DistPayload × Option (DistPayload × Nat) :=
  if useCache then
    match cache with
    | some dist => ({ dist with cached := true, cached_at := now }, none)
    | none =>
      let r := computeDistribution s now hours source
      (r, some (r, 60))
  else
    (computeDistribution s now hours source, none)

/-- routes.get_sentiment_distribution (routes.py lines 301-381): the HTTP
endpoint recomputes from the store on every call; it performs no cache
read and no cache write and hardcodes cached=false. -/
def routeGetDistribution (s : Store) (now : Int) (hours : Nat)
    (source : Option String) : DistPayload :=
  computeDistribution s now hours source

/-! ## Push-gateway metrics producer (routes.py lines 436-475) -/

structure MetricsFrame where
  last_minute : SentimentCounts
  last_hour : SentimentCounts
  last_24_hours : SentimentCounts
  deriving Repr, DecidableEq

/-- One metrics_update frame as built by metrics_loop: the three fields
come from aggregator.get_distribution with hours=1, hours=60 and hours=24
respectively (use_cache=False). -/
def metricsUpdateFrame (s : Store) (now : Int) : MetricsFrame :=
  { last_minute :=
      countsOf (distributionRows s now 1 none),
    last_hour :=
      countsOf (distributionRows s now 60 none),
    last_24_hours :=
      countsOf (distributionRows s now 24 none) }

/-- Modelled from the spec: the sentiment counts over a window given in
MINUTES, the window granularity §4.G requires for the metrics frame
(1-minute, 1-hour = 60-minute and 24-hour = 1440-minute windows); the
corresponding window computation is absent from the code under src/. -/
def specWindowCounts (s : Store) (now : Int) (minutes : Nat) : SentimentCounts :=
  countsOf ((joinedRows s).filter
    (fun pa => decide (now - minutes * 60 ≤ pa.2.analyzed_at)))

/-! ## Push-gateway updates producer (routes.py lines 477-503) and
ConnectionManager.broadcast (lines 384-404) -/

/-- JSON values, for the pub/sub payloads the updates loop decodes. -/
inductive JVal where
  | jnull
  | jbool (b : Bool)
  | jnum (q : ℚ)
  | jstr (s : String)
  | jarr (xs : List JVal)
  | jobj (fields : List (String × JVal))

/-- dict.get(k) on a JSON object field list. -/
def jget (fs : List (String × JVal)) (k : String) : Option JVal :=
  (fs.find? (fun kv => kv.fst == k)).map Prod.snd

/-- payload.get("data") as a field list, defaulting to the empty object
(non-object data never occurs on the post path). -/
def jgetObj (fs : List (String × JVal)) (k : String) : List (String × JVal) :=
  match jget fs k with
  | some (.jobj gs) => gs
  | _ => []

/-- data.get(k, "") rendered as a string for the content preview. -/
def jgetStr (fs : List (String × JVal)) (k : String) : String :=
  match jget fs k with
  | some (.jstr s) => s
  | _ => ""

/-- The new_post frame built for payloads whose type is "post"
(routes.py lines 486-499): reshaped data with content truncated to
100 characters. -/
def buildNewPostFrame (fs : List (String × JVal)) : JVal :=
  let data := jgetObj fs "data"
  .jobj
    [("type", .jstr "new_post"),
     ("data", .jobj
        [("post_id", (jget data "post_id").getD .jnull),
         ("content", .jstr ((jgetStr data "content").take 100)),
         ("source", (jget data "source").getD .jnull),
         ("sentiment_label", (jget data "sentiment_label").getD .jnull),
         ("confidence_score", (jget data "confidence_score").getD .jnull),
         ("emotion", (jget data "emotion").getD .jnull),
         ("timestamp", (jget data "timestamp").getD .jnull)])]

/-- What the updates loop does with one successfully json-decoded pub/sub
payload: either broadcast some frame or skip the message (the
`except Exception: continue` path, taken e.g. when payload is not an
object so payload.get raises). -/
inductive UpdateAction where
  | broadcastFrame (frame : JVal)
  | skip

/-- updates_loop body for one decoded payload (routes.py lines 482-503):
payloads whose "type" equals "post" are reshaped into a new_post frame;
every other object payload is broadcast as-is. -/
def handleUpdatePayload (payload : JVal) : UpdateAction :=
  match payload with
  | .jobj fs =>
    match jget fs "type" with
    | some (.jstr t) =>
      if t == "post" then .broadcastFrame (buildNewPostFrame fs)
      else .broadcastFrame payload
    | _ => .broadcastFrame payload
  | _ => .skip

/-- ConnectionManager.broadcast (routes.py lines 396-401): iterate a
snapshot of the connection list and attempt send_json of the same frame
to each connection. -/
def broadcastSends (conns : List Nat) (frame : JVal) : List (Nat × JVal) :=
  conns.map (fun c => (c, frame))

/-! ## Sentiment analyzer (src/backend/services/sentiment_analyser.py,
SentimentAnalyzer.analyze_emotion, lines 149-262) -/

/-- Result dict of analyze_emotion. -/
structure EmotionOut where
  emotion : String
  confidence_score : ℚ
  model_name : String
  deriving Repr, DecidableEq

/-- The environment of an analyze_emotion call: the local HuggingFace
emotion pipeline as a label/score oracle, its model name, the optional
external API key, the external model identifier, and the external
chat-completions call as an oracle returning the parsed
(emotion, confidence) on success.  Oracles receive the truncated text as
its character list. -/
structure EmotionEnv where
  localScores : List Char → List (String × ℚ)
  localModelName : String
  apiKey : Option String
  apiModel : String
  externalCall : List Char → Option (String × ℚ)

/-- max(0.0, min(score, 1.0)). -/
def clipConfidence (q : ℚ) : ℚ := max 0 (min q 1)

/-- The label-mapping table of the local branch (lines 197-205). -/
def emotionMapping (lbl : String) : String :=
  if lbl == "joy" then "joy"
  else if lbl == "happiness" then "joy"
  else if lbl == "sadness" then "sadness"
  else if lbl == "anger" then "anger"
  else if lbl == "fear" then "fear"
  else if lbl == "surprise" then "surprise"
  else if lbl == "neutral" then "neutral"
  else "neutral"

/-- Best-scoring label of the local pipeline output (lines 188-195);
best_label starts at None (modelled "") with best_score -1.0. -/
def bestLabel : List (String × ℚ) → String × ℚ
  | [] => ("", -1)
  | (l, sc) :: rest =>
    let b := bestLabel rest
    if b.2 < sc then (l, sc) else b

/-- Python picks the FIRST maximal score scanning left to right
(later items replace only on strictly greater score), which is
bestLabel of the reversed list. -/
def bestLabelPy (scores : List (String × ℚ)) : String × ℚ :=
  bestLabel scores.reverse

/-- SentimentAnalyzer.analyze_emotion.  Returns the result dict together
with a flag recording whether a classification model was invoked (the
local pipeline call or the external HTTP call); .error models the
ValueError raised on empty/whitespace input.  The untruncated-length
guard, the short-text early return and both backends follow lines
160-262. -/
def analyzeEmotion (env : EmotionEnv) (modelType : String) (text : String) :
    Except Unit (EmotionOut × Bool) :=
  if text.data.all Char.isWhitespace then
    .error ()
  else
    let truncated := text.data.take 512
    if truncated.length < 10 then
      .ok
        ({ emotion := "neutral",
           confidence_score := 1,
           model_name := if modelType == "local" then env.localModelName else env.apiModel },
         false)
    else if modelType == "local" then
      let best := bestLabelPy (env.localScores truncated)
      .ok
        ({ emotion := emotionMapping best.1,
           confidence_score := clipConfidence best.2,
           model_name := env.localModelName },
         true)
    else
      match env.apiKey with
      | none =>
        .ok ({ emotion := "neutral", confidence_score := 1/2, model_name := env.apiModel },
          false)
      | some _ =>
        match env.externalCall truncated with
        | some (emo, sc) =>
          .ok
            ({ emotion :=
                 if emo = "joy" ∨ emo = "sadness" ∨ emo = "anger" ∨ emo = "fear"
                     ∨ emo = "surprise" ∨ emo = "neutral" then emo else "neutral",
               confidence_score := clipConfidence sc,
               model_name := env.apiModel },
             true)
        | none =>
          .ok ({ emotion := "neutral", confidence_score := 1/2, model_name := env.apiModel },
            true)

/-! ## Concrete fixtures used by counterexamples and witnesses -/

def pdEx : PostData :=
  { post_id := "p1", source := "twitter", content := "I love it",
    author := "alice", created_at := 100 }

def srEx : SentimentResult :=
  { sentiment_label := some "positive", confidence_score := some 1,
    model_name := some "m" }

def erEx : EmotionResult :=
  { emotion := some "joy", confidence_score := 1, model_name := "e" }

/-- The store after the first successful processing of pdEx at time 0. -/
def s1Ex : Store := savePostAndAnalysis .ok 0 Store.empty pdEx srEx erEx

/-- A fully valid stream entry. -/
def msgEx : RawMessage :=
  ⟨[("post_id", "p1"), ("source", "twitter"), ("content", "I love it"),
    ("author", "alice"), ("created_at", "2024-01-01T00:00:00Z")]⟩

/-- A stream entry with the required author field missing. -/
def msgMissingEx : RawMessage :=
  ⟨[("post_id", "p9"), ("source", "twitter"), ("content", "hello world"),
    ("created_at", "2024-01-01T00:00:00Z")]⟩

/-- A worker environment whose classifiers succeed and whose database
raises a transient error on write. -/
def envEx : WorkerEnv :=
  { parseInstant := fun _ => some 100,
    localSentiment := fun _ => some srEx,
    externalSentiment := fun _ => none,
    localEmotion := fun _ => some erEx,
    publishOk := true,
    db := .transientError }

def nowC2 : Int := 1000000

/-- A store with one positive analysis 30 minutes old and one negative
analysis 2 hours old. -/
def storeC2 : Store :=
  { posts :=
      [{ post_id := "p1", source := "twitter", content := "good", author := "a",
         created_at := nowC2 - 1800, ingested_at := nowC2 - 1800 },
       { post_id := "p2", source := "reddit", content := "bad", author := "b",
         created_at := nowC2 - 7200, ingested_at := nowC2 - 7200 }],
    analyses :=
      [{ post_id := "p1", model_name := "m", sentiment_label := "positive",
         confidence_score := 9/10, emotion := some "joy", analyzed_at := nowC2 - 1800 },
       { post_id := "p2", model_name := "m", sentiment_label := "negative",
         confidence_score := 4/5, emotion := some "anger", analyzed_at := nowC2 - 7200 }] }

/-! ## Claim theorems -/

/-- C5: AlertService.save_alert does not construct a record carrying the
fields of the SentimentAlert data model: it passes the keyword arguments
window_minutes, positive_count, negative_count, neutral_count,
total_count, created_at and raw_payload, none of which is a column of
sentiment_alerts, and it sets none of the mandatory columns window_start,
window_end, post_count and details — so the declarative constructor
raises TypeError and no alert is ever persisted or published. -/
theorem c5_save_alert_wrong_fields :
    ("window_minutes" ∈ saveAlertKwargs ∧ "window_minutes" ∉ sentimentAlertColumns) ∧
    ("raw_payload" ∈ saveAlertKwargs ∧ "raw_payload" ∉ sentimentAlertColumns) ∧
    ("window_start" ∈ sentimentAlertColumns ∧ "window_start" ∉ saveAlertKwargs) ∧
    ("window_end" ∈ sentimentAlertColumns ∧ "window_end" ∉ saveAlertKwargs) ∧
    ("post_count" ∈ sentimentAlertColumns ∧ "post_count" ∉ saveAlertKwargs) ∧
    ("details" ∈ sentimentAlertColumns ∧ "details" ∉ saveAlertKwargs) ∧
    ¬ (∀ k ∈ saveAlertKwargs, k ∈ sentimentAlertColumns) := by
  decide

/-- C2: the metrics_update frame does not use the windows the claim
states.  On a store with one analysis 30 minutes old and one 2 hours
old, the emitted last_minute field counts 1 row (the code computes it
over a 1-HOUR window) while a 1-minute window holds 0 rows, and the
emitted last_hour field counts 2 rows (the code passes hours=60, a
60-hour window) while a 1-hour window holds 1 row; only the 24-hour
field matches its stated window. -/
theorem c2_metrics_windows_wrong :
    (metricsUpdateFrame storeC2 nowC2).last_minute.total = 1 ∧
    (specWindowCounts storeC2 nowC2 1).total = 0 ∧
    (metricsUpdateFrame storeC2 nowC2).last_hour.total = 2 ∧
    (specWindowCounts storeC2 nowC2 60).total = 1 ∧
    (metricsUpdateFrame storeC2 nowC2).last_24_hours = specWindowCounts storeC2 nowC2 1440 := by
  decide

/-- C3: on a transient database error during the store write of a fully
valid, successfully classified message, the worker still acknowledges
the entry (save_post_and_analysis swallows the exception, so the
`do NOT ack` handler in process_message never fires): the outcome has
acked = true and processed incremented although nothing was persisted. -/
theorem c3_db_error_still_acked :
    (processMessage envEx 200 Store.empty msgEx).acked = true ∧
    (processMessage envEx 200 Store.empty msgEx).store = Store.empty ∧
    (processMessage envEx 200 Store.empty msgEx).processedInc = true := by
  decide

/-- C7 counterexample: the HTTP distribution endpoint
(routes.get_sentiment_distribution) performs no cache read and no cache
write; re-issuing the same (hours=24, source=all) query 30 seconds later
is again computed from the store and returned with cached = false, not
served as a cache hit with cached = true as the claim states. -/
theorem c7_counterexample :
    (routeGetDistribution storeC2 nowC2 24 none).cached = false ∧
    (routeGetDistribution storeC2 (nowC2 + 30) 24 none).cached = false := by
  decide

/-- C7 amended: for SentimentAggregator.get_distribution with use_cache
enabled, the cache-miss call returns the store-computed payload with
cached = false and writes it through under the distribution key with a
fixed 60-second TTL, and a subsequent call that finds that entry in the
cache returns the stored payload verbatim except that cached = true and
cached_at is refreshed, performing no further write. -/
theorem c7_amended (s s2 : Store) (now1 now2 : Int) (hours : Nat)
    (source : Option String) :
    (getDistribution true none s now1 hours source).1.cached = false ∧
    (getDistribution true none s now1 hours source).2 =
      some ((getDistribution true none s now1 hours source).1, 60) ∧
    (getDistribution true (some (getDistribution true none s now1 hours source).1)
        s2 now2 hours source).1 =
      { (getDistribution true none s now1 hours source).1 with
          cached := true, cached_at := now2 } ∧
    (getDistribution true (some (getDistribution true none s now1 hours source).1)
        s2 now2 hours source).2 = none :=
  ⟨rfl, rfl, rfl, rfl⟩

/-- C7 amended witness: the miss/hit pair on storeC2 with the second call
30 seconds after the first. -/
theorem c7_amended_witness :
    (getDistribution true none storeC2 nowC2 24 none).1.cached = false ∧
    (getDistribution true none storeC2 nowC2 24 none).2 =
      some ((getDistribution true none storeC2 nowC2 24 none).1, 60) ∧
    (getDistribution true (some (getDistribution true none storeC2 nowC2 24 none).1)
        storeC2 (nowC2 + 30) 24 none).1 =
      { (getDistribution true none storeC2 nowC2 24 none).1 with
          cached := true, cached_at := nowC2 + 30 } ∧
    (getDistribution true (some (getDistribution true none storeC2 nowC2 24 none).1)
        storeC2 (nowC2 + 30) 24 none).2 = none :=
  c7_amended storeC2 storeC2 nowC2 (nowC2 + 30) 24 none

/-- save_post_and_analysis on a store with no row for the post_id: both
INSERTs succeed and the transaction commits. -/
theorem savePost_fresh (s : Store) (pd : PostData) (sr : SentimentResult)
    (er : EmotionResult) (now : Int)
    (h : s.posts.any (fun p => p.post_id == pd.post_id) = false) :
    savePostAndAnalysis .ok now s pd sr er =
      { posts := s.posts ++ [newPostRow pd now],
        analyses := s.analyses ++ [newAnalysisRow pd sr er now] } := by
  unfold savePostAndAnalysis insertPostAndAnalysis
  rw [h]
  rfl

/-- save_post_and_analysis on a store that already holds a Post row with
the post_id: the first INSERT violates the unique constraint, the
transaction rolls back, the exception is swallowed, and the store is
unchanged. -/
theorem savePost_dup (s : Store) (pd : PostData) (sr : SentimentResult)
    (er : EmotionResult) (now : Int)
    (h : s.posts.any (fun p => p.post_id == pd.post_id) = true) :
    savePostAndAnalysis .ok now s pd sr er = s := by
  unfold savePostAndAnalysis insertPostAndAnalysis
  rw [h]
  rfl

/-- C1 counterexample: processing the same entry a second time at time 5
does NOT refresh ingested_at.  The duplicate INSERT violates the unique
constraint on post_id, the transaction rolls back, the exception is
swallowed, and the store is returned bit-for-bit unchanged: the single
Post row still carries ingested_at = 0, not the refreshed value 5 the
claim requires. -/
theorem c1_counterexample :
    savePostAndAnalysis .ok 5 s1Ex pdEx srEx erEx = s1Ex ∧
    s1Ex.posts.map PostRow.ingested_at = [0] ∧
    (savePostAndAnalysis .ok 5 s1Ex pdEx srEx erEx).posts.map PostRow.ingested_at ≠ [5] := by
  decide

/-- C1 amended: for an entry whose post_id is new to the store, the first
successful processing inserts exactly one Post row and exactly one
Analysis row for that post_id, and a second processing of any entry with
the same post_id leaves the store completely unchanged — including
ingested_at, which is NOT refreshed — so re-posting the same entry twice
yields identical store state. -/
theorem c1_amended (s : Store) (pd pd2 : PostData) (sr sr2 : SentimentResult)
    (er er2 : EmotionResult) (n1 n2 : Int)
    (hid : pd2.post_id = pd.post_id)
    (hp : ∀ p ∈ s.posts, p.post_id ≠ pd.post_id) :
    savePostAndAnalysis .ok n2 (savePostAndAnalysis .ok n1 s pd sr er) pd2 sr2 er2
      = savePostAndAnalysis .ok n1 s pd sr er ∧
    ((savePostAndAnalysis .ok n1 s pd sr er).posts.filter
        (fun p => p.post_id == pd.post_id)).length = 1 ∧
    ((savePostAndAnalysis .ok n1 s pd sr er).analyses.filter
        (fun a => a.post_id == pd.post_id)).length =
      (s.analyses.filter (fun a => a.post_id == pd.post_id)).length + 1 := by
  have hany1 : s.posts.any (fun p => p.post_id == pd.post_id) = false := by
    rw [List.any_eq_false]
    intro p hpm
    simpa using hp p hpm
  have hs1 := savePost_fresh s pd sr er n1 hany1
  have hany2 : (savePostAndAnalysis .ok n1 s pd sr er).posts.any
      (fun p => p.post_id == pd2.post_id) = true := by
    rw [hs1]
    simp [List.any_append, newPostRow, hid]
  refine ⟨savePost_dup _ pd2 sr2 er2 n2 hany2, ?_, ?_⟩
  · rw [hs1]
    have hnil : s.posts.filter (fun p => p.post_id == pd.post_id) = [] := by
      rw [List.filter_eq_nil_iff]
      intro p hpm
      simpa using hp p hpm
    simp [List.filter_append, hnil, newPostRow]
  · rw [hs1]
    simp [List.filter_append, newAnalysisRow]

/-- C1 amended witness at a concrete input: processing pdEx into the
empty store and re-processing it at a later time. -/
theorem c1_amended_witness :
    savePostAndAnalysis .ok 5 (savePostAndAnalysis .ok 0 Store.empty pdEx srEx erEx)
      pdEx srEx erEx = savePostAndAnalysis .ok 0 Store.empty pdEx srEx erEx ∧
    ((savePostAndAnalysis .ok 0 Store.empty pdEx srEx erEx).posts.filter
        (fun p => p.post_id == pdEx.post_id)).length = 1 ∧
    ((savePostAndAnalysis .ok 0 Store.empty pdEx srEx erEx).analyses.filter
        (fun a => a.post_id == pdEx.post_id)).length =
      (Store.empty.analyses.filter (fun a => a.post_id == pdEx.post_id)).length + 1 :=
  c1_amended Store.empty pdEx pdEx srEx srEx erEx erEx 0 5 rfl (by decide)

/-- Store with 1 positive and 2 negative analyses 30-50 seconds old, each
joined to its post. -/
def storeC4 : Store :=
  { posts :=
      [{ post_id := "q1", source := "twitter", content := "nice", author := "a",
         created_at := 9950, ingested_at := 9950 },
       { post_id := "q2", source := "twitter", content := "awful", author := "b",
         created_at := 9960, ingested_at := 9960 },
       { post_id := "q3", source := "reddit", content := "worse", author := "c",
         created_at := 9970, ingested_at := 9970 }],
    analyses :=
      [{ post_id := "q1", model_name := "m", sentiment_label := "positive",
         confidence_score := 1, emotion := some "joy", analyzed_at := 9950 },
       { post_id := "q2", model_name := "m", sentiment_label := "negative",
         confidence_score := 1, emotion := some "anger", analyzed_at := 9960 },
       { post_id := "q3", model_name := "m", sentiment_label := "negative",
         confidence_score := 1, emotion := some "anger", analyzed_at := 9970 }] }

/-- C4: on a monitor tick with (pos, neg, neu, total) the sentiment counts
over the last window_minutes: a total below min_posts yields no alert;
the ratio is neg / max(pos, 1) when pos > 0, infinite when pos = 0 and
neg > 0, and 0 when both are 0; and when the total reaches min_posts an
alert is produced exactly when the ratio exceeds the threshold. -/
theorem c4_check_thresholds (threshold : ℚ) (minPosts windowMinutes : Nat)
    (s : Store) (now : Int) :
    ((alertWindowCounts s now windowMinutes).total < minPosts →
      checkThresholds threshold minPosts windowMinutes s now = none) ∧
    (0 < (alertWindowCounts s now windowMinutes).positive →
      computeRatio (alertWindowCounts s now windowMinutes).positive
          (alertWindowCounts s now windowMinutes).negative =
        AlertRatio.finite (((alertWindowCounts s now windowMinutes).negative : ℚ) /
          (max ((alertWindowCounts s now windowMinutes).positive) 1 : ℚ))) ∧
    ((alertWindowCounts s now windowMinutes).positive = 0 →
      0 < (alertWindowCounts s now windowMinutes).negative →
      computeRatio (alertWindowCounts s now windowMinutes).positive
          (alertWindowCounts s now windowMinutes).negative = AlertRatio.infinite) ∧
    ((alertWindowCounts s now windowMinutes).positive = 0 →
      (alertWindowCounts s now windowMinutes).negative = 0 →
      computeRatio (alertWindowCounts s now windowMinutes).positive
          (alertWindowCounts s now windowMinutes).negative = AlertRatio.finite 0) ∧
    (minPosts ≤ (alertWindowCounts s now windowMinutes).total →
      ∀ q : ℚ, computeRatio (alertWindowCounts s now windowMinutes).positive
          (alertWindowCounts s now windowMinutes).negative = AlertRatio.finite q →
        ((checkThresholds threshold minPosts windowMinutes s now).isSome = true ↔
          threshold < q)) ∧
    (minPosts ≤ (alertWindowCounts s now windowMinutes).total →
      computeRatio (alertWindowCounts s now windowMinutes).positive
          (alertWindowCounts s now windowMinutes).negative = AlertRatio.infinite →
      (checkThresholds threshold minPosts windowMinutes s now).isSome = true) := by
  refine ⟨?_, ?_, ?_, ?_, ?_, ?_⟩
  · intro h
    simp only [checkThresholds]
    rw [if_pos h]
  · intro h
    simp only [computeRatio]
    rw [if_neg (Nat.pos_iff_ne_zero.mp h)]
  · intro h0 hneg
    simp only [computeRatio]
    rw [if_pos h0, if_pos hneg]
  · intro h0 hneg
    simp only [computeRatio]
    rw [if_pos h0, if_neg (by omega)]
  · intro h q hq
    simp only [checkThresholds]
    rw [if_neg (not_lt.mpr h), hq]
    simp only [ratioLe]
    rcases le_or_lt q threshold with hle | hlt
    · rw [if_pos (by simpa using hle)]
      simpa using not_lt.mpr hle
    · rw [if_neg (by simpa using not_le.mpr hlt)]
      simpa using hlt
  · intro h hq
    simp only [checkThresholds]
    rw [if_neg (not_lt.mpr h), hq]
    simp [ratioLe]

/-- C4 witness: with threshold 3/2, min_posts 3 and a 5-minute window over
storeC4 at tick time 10000, the counts are (1, 2, 0, 3), the ratio is the
finite value 2, and an alert is produced; raising min_posts to 4 yields no
alert. -/
theorem c4_witness :
    (checkThresholds (3/2) 3 5 storeC4 10000).isSome = true ∧
    checkThresholds (3/2) 4 5 storeC4 10000 = none := by
  constructor
  · have hpos : (alertWindowCounts storeC4 10000 5).positive = 1 := by decide
    have hneg : (alertWindowCounts storeC4 10000 5).negative = 2 := by decide
    have hq : computeRatio (alertWindowCounts storeC4 10000 5).positive
        (alertWindowCounts storeC4 10000 5).negative = AlertRatio.finite 2 := by
      rw [hpos, hneg]
      simp only [computeRatio]
      norm_num
    have h := (c4_check_thresholds (3/2) 3 5 storeC4 10000).2.2.2.2.1
      (by decide) 2 hq
    exact h.mpr (by norm_num)
  · exact (c4_check_thresholds (3/2) 4 5 storeC4 10000).1 (by decide)

/-- C8: a stream entry missing one of the five required fields, or whose
created_at is rejected by datetime.fromisoformat, is treated as poison:
the worker acknowledges it (so it is never redelivered), persists nothing,
and increments the failed counter. -/
theorem c8_poison_ack (env : WorkerEnv) (now : Int) (s : Store) (m : RawMessage)
    (h : (∃ k ∈ requiredKeys, m.get k = none) ∨
      ((∀ k ∈ requiredKeys, (m.get k).isSome = true) ∧
        ∃ c, m.get "created_at" = some c ∧ env.parseInstant c = none)) :
    (processMessage env now s m).acked = true ∧
    (processMessage env now s m).store = s ∧
    (processMessage env now s m).failedInc = true ∧
    (processMessage env now s m).processedInc = false := by
  have hpm : processMessage env now s m = poisonOutcome s := by
    rcases h with ⟨k, hk, hnone⟩ | ⟨hall, c, hc, hpc⟩
    · have hAll : hasAllRequired m = false := by
        unfold hasAllRequired
        rw [List.all_eq_false]
        exact ⟨k, hk, by simp [hnone]⟩
      unfold processMessage
      rw [hAll]
      rfl
    · have hAll : hasAllRequired m = true := by
        unfold hasAllRequired
        rw [List.all_eq_true]
        intro k hk
        simpa using hall k hk
      have hgd : (m.get "created_at").getD "" = c := by
        rw [hc]
        rfl
      unfold processMessage
      rw [hAll, hgd, hpc]
      rfl
  rw [hpm]
  exact ⟨rfl, rfl, rfl, rfl⟩

/-- C8 witness: the entry msgMissingEx lacks the author field; the worker
acks it, stores nothing and counts it failed. -/
theorem c8_witness :
    (processMessage envEx 0 Store.empty msgMissingEx).acked = true ∧
    (processMessage envEx 0 Store.empty msgMissingEx).store = Store.empty ∧
    (processMessage envEx 0 Store.empty msgMissingEx).failedInc = true ∧
    (processMessage envEx 0 Store.empty msgMissingEx).processedInc = false :=
  c8_poison_ack envEx 0 Store.empty msgMissingEx
    (Or.inl ⟨"author", by decide, by decide⟩)

/-- Rows whose sentiment_label is one of the three labels are counted
exactly once each by the three label counters. -/
theorem countLabel_three (l : List (PostRow × AnalysisRow))
    (h : ∀ pa ∈ l, pa.2.sentiment_label = "positive" ∨ pa.2.sentiment_label = "negative"
      ∨ pa.2.sentiment_label = "neutral") :
    countLabel l "positive" + countLabel l "negative" + countLabel l "neutral" = l.length := by
  induction l with
  | nil => rfl
  | cons hd tl ih =>
    have hhd := h hd (List.mem_cons_self hd tl)
    have ih2 := ih (fun pa hm => h pa (List.mem_cons_of_mem hd hm))
    simp only [countLabel] at ih2
    simp only [countLabel, List.filter_cons, apply_ite List.length, List.length_cons]
    rcases hhd with h1 | h1 | h1 <;> rw [h1] <;> simp <;> omega

/-- Every joined row's analysis component is a row of the analyses table. -/
theorem mem_joined_analyses {s : Store} {pa : PostRow × AnalysisRow}
    (h : pa ∈ joinedRows s) : pa.2 ∈ s.analyses := by
  simp only [joinedRows, List.mem_flatMap, List.mem_map] at h
  obtain ⟨a, ha, p, hp, rfl⟩ := h
  exact ha

/-- C6: in every aggregate response built over analyses whose labels are
among positive/negative/neutral (the only labels the pipeline writes),
each data[] bucket satisfies positive_count + negative_count +
neutral_count = total_count, and the range summary's four totals equal
the sums of the corresponding per-bucket counts over data[]. -/
theorem c6_aggregate_invariants (s : Store) (period : String) (startT endT : Int)
    (source : Option String)
    (h : ∀ a ∈ s.analyses, a.sentiment_label = "positive" ∨ a.sentiment_label = "negative"
      ∨ a.sentiment_label = "neutral") :
    (∀ bo ∈ (getAggregate s period startT endT source).data,
      bo.positive_count + bo.negative_count + bo.neutral_count = bo.total_count) ∧
    (getAggregate s period startT endT source).summary.total_posts =
      ((getAggregate s period startT endT source).data.map (fun bo => bo.total_count)).sum ∧
    (getAggregate s period startT endT source).summary.positive_total =
      ((getAggregate s period startT endT source).data.map (fun bo => bo.positive_count)).sum ∧
    (getAggregate s period startT endT source).summary.negative_total =
      ((getAggregate s period startT endT source).data.map (fun bo => bo.negative_count)).sum ∧
    (getAggregate s period startT endT source).summary.neutral_total =
      ((getAggregate s period startT endT source).data.map (fun bo => bo.neutral_count)).sum := by
  refine ⟨?_, rfl, rfl, rfl, rfl⟩
  intro bo hbo
  simp only [getAggregate, List.mem_map] at hbo
  obtain ⟨b, hb, rfl⟩ := hbo
  simp only [mkBucketOut]
  apply countLabel_three
  intro pa hpa
  have hrows : pa ∈ aggregateRows s startT endT source := List.mem_of_mem_filter hpa
  have hjoin : pa ∈ joinedRows s := by
    simp only [aggregateRows] at hrows
    exact List.mem_of_mem_filter hrows
  exact h pa.2 (mem_joined_analyses hjoin)

/-- C6 witness: the invariants instantiated on storeC2 with an hourly
aggregate over the whole time range. -/
theorem c6_witness :
    (∀ bo ∈ (getAggregate storeC2 "hour" 0 2000000 none).data,
      bo.positive_count + bo.negative_count + bo.neutral_count = bo.total_count) ∧
    (getAggregate storeC2 "hour" 0 2000000 none).summary.total_posts =
      ((getAggregate storeC2 "hour" 0 2000000 none).data.map (fun bo => bo.total_count)).sum ∧
    (getAggregate storeC2 "hour" 0 2000000 none).summary.positive_total =
      ((getAggregate storeC2 "hour" 0 2000000 none).data.map (fun bo => bo.positive_count)).sum ∧
    (getAggregate storeC2 "hour" 0 2000000 none).summary.negative_total =
      ((getAggregate storeC2 "hour" 0 2000000 none).data.map (fun bo => bo.negative_count)).sum ∧
    (getAggregate storeC2 "hour" 0 2000000 none).summary.neutral_total =
      ((getAggregate storeC2 "hour" 0 2000000 none).data.map (fun bo => bo.neutral_count)).sum :=
  c6_aggregate_invariants storeC2 "hour" 0 2000000 none (by decide)

/-- C9: a pub/sub payload that is a JSON object whose type field is
anything other than the string "post" is handed to broadcast unchanged —
no validation, reshaping or truncation — and broadcast attempts to send
that same frame to every connection in the current snapshot. -/
theorem c9_forward_verbatim (fs : List (String × JVal)) (v : JVal) (conns : List Nat)
    (hv : jget fs "type" = some v) (hne : ∀ t : String, v = JVal.jstr t → t ≠ "post") :
    handleUpdatePayload (.jobj fs) = .broadcastFrame (.jobj fs) ∧
    broadcastSends conns (.jobj fs) = conns.map (fun c => (c, JVal.jobj fs)) := by
  refine ⟨?_, rfl⟩
  simp only [handleUpdatePayload]
  rw [hv]
  cases v with
  | jstr t =>
    have ht : (t == "post") = false := beq_eq_false_iff_ne.mpr (hne t rfl)
    simp [ht]
  | jnull => rfl
  | jbool b => rfl
  | jnum q => rfl
  | jarr xs => rfl
  | jobj gs => rfl

def payloadC9 : List (String × JVal) :=
  [("type", JVal.jstr "alert"), ("count", JVal.jnum 3)]

/-- C9 witness: an object payload with type "alert" is broadcast verbatim
to both connections of a two-subscriber snapshot. -/
theorem c9_witness :
    handleUpdatePayload (.jobj payloadC9) = .broadcastFrame (.jobj payloadC9) ∧
    broadcastSends [1, 2] (.jobj payloadC9) =
      [(1, JVal.jobj payloadC9), (2, JVal.jobj payloadC9)] := by
  have h := c9_forward_verbatim payloadC9 (JVal.jstr "alert") [1, 2] rfl
    (by
      intro t ht
      have h2 : "alert" = t := by injection ht
      subst h2
      decide)
  exact ⟨h.1, h.2⟩

/-- C10: on any non-empty, non-whitespace text whose first 512 characters
number fewer than 10, analyze_emotion returns emotion "neutral" with
confidence exactly 1.0 and no classification model is invoked, in local
and external mode alike. -/
theorem c10_short_text_neutral (env : EmotionEnv) (modelType : String) (text : String)
    (h1 : ¬ text.data.all Char.isWhitespace = true)
    (h2 : (text.data.take 512).length < 10) :
    analyzeEmotion env modelType text =
      .ok
        ({ emotion := "neutral", confidence_score := 1,
           model_name := if modelType == "local" then env.localModelName else env.apiModel },
         false) := by
  simp only [analyzeEmotion]
  rw [if_neg h1, if_pos h2]

def emoEnvEx : EmotionEnv :=
  { localScores := fun _ => [("anger", 1)],
    localModelName := "local-model",
    apiKey := some "k",
    apiModel := "ext-model",
    externalCall := fun _ => some ("fear", 1) }

/-- C10 witness: the 2-character text "ok" in local mode. -/
theorem c10_witness :
    analyzeEmotion emoEnvEx "local" "ok" =
      .ok ({ emotion := "neutral", confidence_score := 1, model_name := "local-model" },
        false) :=
  c10_short_text_neutral emoEnvEx "local" "ok" (by decide) (by decide)

end SentimentPlatform
